import Mathlib

/-!
Shallow embedding of the IIT-WEBSITE backend (Flask + PostgreSQL scholar
publication site) and proofs about its specification claims.

Source files embedded:
- backend/scholar_fetcher.py : retry loop, per-publication processing,
  author-name highlighting, year sorting and grouping.
- backend/database.py : paginated reads, search, profile read/upsert,
  transactional bulk replace of the publications table.
- backend/bulk_sync.py and backend/app.py : the sync orchestrator and the
  admin sync endpoint.
- backend/fixunknown.py : the year analysis script.

Machine integers are modelled as Int/Nat (Python ints are unbounded), SQL
NULL as Option, exceptions as Option/sum results, and the database as
explicit lists of rows threaded through each operation.
-/

/-! ## Python string and int primitives used by the backend -/

/-- Python str.isdigit for ASCII content: nonempty and every char a digit. -/
def pyStrIsDigit (s : String) : Bool :=
  !s.toList.isEmpty && s.toList.all Char.isDigit

/-- Python int(s) on a digit string: decimal value of the digits. -/
def strToNat (s : String) : Nat :=
  s.toList.foldl (fun acc c => acc * 10 + (c.toNat - '0'.toNat)) 0

/-- Decimal digit list of a natural number, most significant first.
Fuel-based structural recursion so that the kernel can evaluate it; the
fuel is always sufficient when called through natToDecStr. -/
def natDecDigitsAux : Nat → Nat → List Char
  | _, 0 => ['0']
  | 0, n => [Nat.digitChar (n % 10)]
  | fuel + 1, n =>
      if n < 10 then [Nat.digitChar n]
      else natDecDigitsAux fuel (n / 10) ++ [Nat.digitChar (n % 10)]

/-- Python str(n) for a natural number. -/
def natToDecStr (n : Nat) : String := ⟨natDecDigitsAux n n⟩

/-- Python str(n) for an int: a minus sign followed by digits when negative. -/
def pyStrOfInt (n : Int) : String :=
  if n < 0 then "-" ++ natToDecStr n.natAbs else natToDecStr n.toNat

/-- Python str applied to an optional int field (str(None) is the text None). -/
def pyStrOfOptInt : Option Int → String
  | none => "None"
  | some n => pyStrOfInt n

/-- Python truthiness of an optional int: None and 0 are falsy. -/
def pyTruthy : Option Int → Bool
  | none => false
  | some n => n != 0

/-! ## ScholarFetcher._highlight_author_name (scholar_fetcher.py 107-122)

The three regex patterns are word-boundary-delimited case-insensitive
literals, so re.sub is embedded as a left-to-right scan over the input
characters: at each position the scanner checks the boundary context in
the original string, the case-insensitive literal, and the trailing
boundary, and on a match emits the strong markers around the matched
original text and resumes after the match. -/

/-- Python regex word character, ASCII fragment: letters, digits, underscore. -/
def isWordChar (c : Char) : Bool := c.isAlphanum || c = '_'

/-- Case-insensitive character comparison (re.IGNORECASE). -/
def ciEq (a b : Char) : Bool := a.toLower = b.toLower

/-- Does pat match case-insensitively as a prefix of s. -/
def matchesPrefixCI : List Char → List Char → Bool
  | [], _ => true
  | _ :: _, [] => false
  | p :: ps, c :: cs => ciEq c p && matchesPrefixCI ps cs

/-- A word-boundary-delimited case-insensitive match of pat at the head of s,
with prev the character immediately before this position in the original
string (none at the start).  The patterns in the source start and end with
word characters, so the two \b anchors amount to the neighbours being
absent or non-word. -/
def matchHere (prev : Option Char) (pat s : List Char) : Bool :=
  (match prev with
   | none => true
   | some c => !isWordChar c)
  && matchesPrefixCI pat s
  && (match (s.drop pat.length).head? with
      | none => true
      | some c => !isWordChar c)

/-- Does pat have a boundary-delimited case-insensitive occurrence anywhere
in s, where prev is the character just before s in the original string. -/
def existsMatchFrom (pat : List Char) : Option Char → List Char → Bool
  | _, [] => false
  | prev, c :: cs => matchHere prev pat (c :: cs) || existsMatchFrom pat (some c) cs

/-- One re.sub pass: scan left to right, wrap each non-overlapping match of
pat in strong tags, and resume after the matched region.  Fuel-based
structural recursion; reSub always supplies enough fuel. -/
def subScanF (pat : List Char) : Nat → Option Char → List Char → List Char
  | _, _, [] => []
  | 0, _, s => s
  | fuel + 1, prev, c :: cs =>
      if matchHere prev pat (c :: cs) then
        let taken := (c :: cs).take pat.length
        "<strong>".toList ++ taken ++ "</strong>".toList
          ++ subScanF pat fuel taken.getLast? ((c :: cs).drop pat.length)
      else c :: subScanF pat fuel (some c) cs

/-- re.sub of one pattern over the whole string. -/
def reSub (pat : List Char) (s : List Char) : List Char :=
  subScanF pat s.length none s

/-- Pattern A Dixit with word boundaries (scholar_fetcher.py line 114). -/
def pat1 : List Char := "A Dixit".toList

/-- Pattern Abhishek Dixit with word boundaries (line 115). -/
def pat2 : List Char := "Abhishek Dixit".toList

/-- Pattern A. Dixit with word boundaries (line 116). -/
def pat3 : List Char := "A. Dixit".toList

/-- ScholarFetcher._highlight_author_name: empty author strings are returned
as they are, otherwise the three patterns are substituted in order. -/
def highlight_author_name (authors : String) : String :=
  if authors = "" then authors
  else ⟨reSub pat3 (reSub pat2 (reSub pat1 authors.toList))⟩

/-! ## ScholarFetcher processing and formatting (scholar_fetcher.py 59-150) -/

/-- Raw data available for one publication after scholarly.fill: the bib
fields may be individually missing (the source reads them with .get and a
default). -/
structure RawPub where
  bib_title : Option String
  bib_author : Option String
  bib_venue : Option String
  bib_pub_year : Option Int
  num_citations : Int
  pub_url : Option String
deriving Repr, DecidableEq

/-- One processed publication record as appended by
_process_all_publications (year still a string at this stage). -/
structure ScholarPub where
  title : String
  authors : String
  venue : String
  year : String
  citations : Int
  scholar_url : String
  pub_number : Nat
deriving Repr, DecidableEq

/-- Body of the per-publication try block (scholar_fetcher.py 66-102): a
none item models scholarly.fill raising for that publication, in which
case the item is skipped; i is the 0-based loop index. -/
def processOne (i : Nat) : Option RawPub → Option ScholarPub
  | none => none
  | some raw => some
      { title := raw.bib_title.getD "Unknown Title"
        authors := highlight_author_name (raw.bib_author.getD "")
        venue := raw.bib_venue.getD ""
        year := match raw.bib_pub_year with
                | some n => pyStrOfInt n
                | none => "Unknown"
        citations := raw.num_citations
        scholar_url := raw.pub_url.getD ""
        pub_number := i + 1 }

/-- The enumerate loop of _process_all_publications starting at index i. -/
def processFrom (i : Nat) : List (Option RawPub) → List ScholarPub
  | [] => []
  | p :: ps =>
      match processOne i p with
      | some r => r :: processFrom (i + 1) ps
      | none => processFrom (i + 1) ps

/-- ScholarFetcher._process_all_publications. -/
def process_all_publications (pubs : List (Option RawPub)) : List ScholarPub :=
  processFrom 0 pubs

/-- The 1-based positions of the non-failing items, in order. -/
def okPositions (pubs : List (Option RawPub)) : List Nat :=
  (pubs.enum.filter (fun p => p.2.isSome)).map (fun p => p.1 + 1)

/-- Sort key used by _format_scholar_data line 128: int(year) when the year
string is digits, otherwise 0. -/
def formatSortKey (p : ScholarPub) : Int :=
  if pyStrIsDigit p.year then (strToNat p.year : Int) else 0

/-- The descending comparator induced by the sort key (reverse=True). -/
def pubKeyLE (a b : ScholarPub) : Bool := formatSortKey b ≤ formatSortKey a

/-- publications.sort(key=..., reverse=True): a stable descending sort by
the key; List.mergeSort is stable, so it agrees with Python list.sort. -/
def sortPublicationsDesc (pubs : List ScholarPub) : List ScholarPub :=
  pubs.mergeSort pubKeyLE

/-- Insert one record into the year grouping, preserving dict insertion
order of the year labels (scholar_fetcher.py 131-136). -/
def insertByYear (acc : List (String × List ScholarPub)) (p : ScholarPub) :
    List (String × List ScholarPub) :=
  if acc.any (fun kv => kv.1 = p.year) then
    acc.map (fun kv => if kv.1 = p.year then (kv.1, kv.2 ++ [p]) else kv)
  else acc ++ [(p.year, [p])]

/-- The grouping loop of _format_scholar_data applied to the sorted list. -/
def groupByYear (pubs : List ScholarPub) : List (String × List ScholarPub) :=
  (sortPublicationsDesc pubs).foldl insertByYear []

/-! ## ScholarFetcher.fetch_scholar_data retry loop (scholar_fetcher.py 15-57)

One attempt is modelled as a function from the 1-based attempt number to
an optional result: none models an exception raised during that attempt.
The returned pair carries the result and the number of attempts made. -/

/-- The for-loop over the attempt numbers: on success return immediately,
on failure return the sentinel when the retry ceiling is reached,
otherwise back off and continue. -/
def fetchAttempts (f : Nat → Option α) (max_retries : Nat) : List Nat → Option α × Nat
  | [] => (none, 0)
  | a :: rest =>
      match f a with
      | some r => (some r, a)
      | none => if a = max_retries then (none, a) else fetchAttempts f max_retries rest

/-- ScholarFetcher.fetch_scholar_data with max_retries = 3: attempts are
numbered 1, 2, 3 as by range(1, self.max_retries + 1). -/
def fetch_scholar_data (f : Nat → Option α) : Option α × Nat :=
  fetchAttempts f 3 (List.range' 1 3)

/-! ## Storage gateway (database.py)

The publications table is a list of rows; Option Int models the nullable
year column.  Each transactional operation is a pure function from the
committed row set (and its inputs) to a result plus the new committed row
set; an injected failure step models an exception raised inside the try
block, after which the except handler rolls the transaction back. -/

/-- A row of the publications table. -/
structure PubRow where
  title : String
  authors : String
  venue : String
  year : Option Int
  citations : Int
  scholar_url : String
  pub_number : Int
deriving Repr, DecidableEq

/-- A publication dict as passed to bulk_insert_publications (the year is
already an optional int after the orchestrator flattening step). -/
structure PubDict where
  title : String
  authors : String
  venue : String
  year : Option Int
  citations : Int
  scholar_url : String
  pub_number : Int
deriving Repr, DecidableEq

/-- The year expression of database.py line 249: the year field is kept
only when it is truthy and its str() is all digits, otherwise NULL. -/
def sanitizeYear (y : Option Int) : Option Int :=
  if pyTruthy y && pyStrIsDigit (pyStrOfOptInt y) then y else none

/-- One tuple of the values list built in database.py 243-253. -/
def pubToValue (p : PubDict) : PubRow :=
  { title := p.title
    authors := p.authors
    venue := p.venue
    year := sanitizeYear p.year
    citations := p.citations
    scholar_url := p.scholar_url
    pub_number := p.pub_number }

/-- The batch slices values[i : i + 100] of the insert loop (batch_size =
100, database.py 257-262).  Fuel-based structural recursion; batches100
supplies fuel at least the list length, which always suffices. -/
def batchesAux : Nat → List PubRow → List (List PubRow)
  | _, [] => []
  | 0, l => [l]
  | fuel + 1, x :: xs => ((x :: xs).take 100) :: batchesAux fuel ((x :: xs).drop 100)

/-- The list of insert batches of 100 rows each. -/
def batches100 (l : List PubRow) : List (List PubRow) := batchesAux l.length l

/-- In-flight transaction state: committed is what the table reverts to on
rollback, pending is the uncommitted view being built. -/
structure TxState where
  committed : List PubRow
  pending : List PubRow
deriving Repr, DecidableEq

/-- The insert loop of bulk_insert_publications: step counts the
transaction steps already numbered (step 0 was the DELETE), and failAt
injects an exception at the given step, triggering the except handler
(rollback, return False).  When all batches insert, the transaction
commits and the call returns True. -/
def runBatches (failAt : Option Nat) : Nat → TxState → List (List PubRow) → Bool × List PubRow
  | _, st, [] => (true, st.pending)
  | step, st, b :: bs =>
      if failAt = some step then (false, st.committed)
      else runBatches failAt (step + 1) { st with pending := st.pending ++ b } bs

/-- SupabaseManager.bulk_insert_publications (database.py 225-275): inside
one transaction, DELETE FROM publications then insert the values in
batches of 100; any raised step rolls the whole transaction back and the
call returns False with the pre-replace rows intact, otherwise it commits
and returns True.  The first component is the returned bool, the second
the committed table after the call. -/
def bulk_insert_publications (failAt : Option Nat) (db : List PubRow)
    (pubs : List PubDict) : Bool × List PubRow :=
  let values := pubs.map pubToValue
  let st : TxState := { committed := db, pending := db }
  if failAt = some 0 then (false, st.committed)
  else runBatches failAt 1 { st with pending := [] } (batches100 values)

/-- The year filter of get_publications: the all value, the Unknown
sentinel (WHERE year IS NULL), or an exact year (WHERE year = v). -/
inductive YearFilter
  | all
  | unknownYear
  | exact (y : Int)
deriving Repr, DecidableEq

/-- Does a row's year column satisfy the filter's WHERE clause. -/
def matchesYear : YearFilter → Option Int → Bool
  | .all, _ => true
  | .unknownYear, y => y = none
  | .exact v, y => y = some v

/-- The comparator of ORDER BY year DESC NULLS LAST, citations DESC:
rowLE a b holds when a may come no later than b. -/
def rowLE (a b : PubRow) : Bool :=
  match a.year, b.year with
  | some ya, some yb => yb < ya || (ya = yb && b.citations ≤ a.citations)
  | some _, none => true
  | none, some _ => false
  | none, none => b.citations ≤ a.citations

/-- The row ordering shared by get_publications, get_all_publications and
search_publications. -/
def orderPublications (rows : List PubRow) : List PubRow :=
  rows.mergeSort rowLE

/-- The pagination object returned by get_publications (database.py
95-103). -/
structure Pagination where
  page : Nat
  per_page : Nat
  total : Nat
  total_pages : Nat
  has_next : Bool
deriving Repr, DecidableEq

/-- SupabaseManager.get_publications (database.py 57-111): filter, count,
order, and slice with LIMIT per_page OFFSET (page - 1) * per_page. -/
def get_publications (db : List PubRow) (page per_page : Nat) (yf : YearFilter) :
    List PubRow × Pagination :=
  let rows := db.filter (fun r => matchesYear yf r.year)
  let total := rows.length
  let offset := (page - 1) * per_page
  (((orderPublications rows).drop offset).take per_page,
   { page := page
     per_page := per_page
     total := total
     total_pages := (total + per_page - 1) / per_page
     has_next := decide (offset + per_page < total) })

/-- Case-insensitive substring containment, the semantics of
column ILIKE the percent-wrapped query. -/
def containsCI (hay needle : String) : Bool :=
  let h := hay.toList.map Char.toLower
  let n := needle.toList.map Char.toLower
  (List.range (h.length + 1)).any (fun i => (h.drop i).take n.length = n)

/-- The WHERE clause of search_publications: title, authors or venue
matches the query case-insensitively. -/
def matchesSearch (q : String) (r : PubRow) : Bool :=
  containsCI r.title q || containsCI r.authors q || containsCI r.venue q

/-- SupabaseManager.search_publications (database.py 309-349): same
ordering and slicing as the paginated read, filtered by the search clause;
returns the page of rows and the total match count. -/
def search_publications (db : List PubRow) (q : String) (page per_page : Nat) :
    List PubRow × Nat :=
  let rows := db.filter (matchesSearch q)
  let offset := (page - 1) * per_page
  (((orderPublications rows).drop offset).take per_page, rows.length)

/-- A row of the scholar_profile table. -/
structure ProfileRow where
  id : Nat
  name : String
  affiliation : String
  scholar_url : String
  total_citations : Int
  h_index : Int
  i10_index : Int
  total_publications : Int
  last_updated : Nat
deriving Repr, DecidableEq

/-- The profile dict returned by get_profile (the caller-visible fields). -/
structure ProfileDict where
  name : String
  affiliation : String
  scholar_url : String
  total_citations : Int
  h_index : Int
  i10_index : Int
  total_publications : Int
deriving Repr, DecidableEq

/-- The hard-coded default profile of database.py 149-157. -/
def defaultProfile : ProfileDict :=
  { name := "Dr. Abhishek Dixit"
    affiliation := "Indian Institute of Technology Delhi"
    scholar_url := "https://scholar.google.co.in/citations?user=CjJ84BwAAAAJ&hl=en"
    total_citations := 0
    h_index := 0
    i10_index := 0
    total_publications := 0 }

/-- Comparator of ORDER BY last_updated DESC for the profile read. -/
def profileLE (a b : ProfileRow) : Bool := b.last_updated ≤ a.last_updated

/-- The caller-visible fields of a profile row. -/
def profileRowToDict (r : ProfileRow) : ProfileDict :=
  { name := r.name
    affiliation := r.affiliation
    scholar_url := r.scholar_url
    total_citations := r.total_citations
    h_index := r.h_index
    i10_index := r.i10_index
    total_publications := r.total_publications }

/-- SupabaseManager.get_profile (database.py 136-164): the most recently
updated row when one exists, otherwise the hard-coded default profile. -/
def get_profile (profiles : List ProfileRow) : ProfileDict :=
  match (profiles.mergeSort profileLE).head? with
  | some r => profileRowToDict r
  | none => defaultProfile

/-- SupabaseManager.update_profile (database.py 166-223): read whether a
row exists; update it in place refreshing last_updated when so, otherwise
insert a new row (newId models the store-assigned id, now the NOW()
timestamp).  Returns the success bool and the new table. -/
def update_profile (profiles : List ProfileRow) (pd : ProfileDict)
    (newId now : Nat) : Bool × List ProfileRow :=
  match profiles.head? with
  | some existing =>
      (true,
       profiles.map (fun r =>
         if r.id = existing.id then
           { id := r.id
             name := pd.name
             affiliation := pd.affiliation
             scholar_url := pd.scholar_url
             total_citations := pd.total_citations
             h_index := pd.h_index
             i10_index := pd.i10_index
             total_publications := pd.total_publications
             last_updated := now }
         else r))
  | none =>
      (true,
       profiles ++
         [{ id := newId
            name := pd.name
            affiliation := pd.affiliation
            scholar_url := pd.scholar_url
            total_citations := pd.total_citations
            h_index := pd.h_index
            i10_index := pd.i10_index
            total_publications := pd.total_publications
            last_updated := now }])

/-! ## Orchestrator and web layer (bulk_sync.py, app.py) -/

/-- The profile block of the fetcher result (scholar_fetcher.py 139-146). -/
structure ScholarProfileData where
  name : String
  affiliation : String
  scholar_url : String
  total_citations : Int
  h_index : Int
  i10_index : Int
deriving Repr, DecidableEq

/-- The fetcher result consumed by the orchestrator: profile fields plus
the year-grouped publication records. -/
structure ScholarData where
  profile : ScholarProfileData
  publications_by_year : List (String × List ScholarPub)
  total_publications : Nat
deriving Repr, DecidableEq

/-- The year conversion of the flattening loops (bulk_sync.py line 69,
app.py line 195): int(year) when the label is digits, else None. -/
def int_of_year (year : String) : Option Int :=
  if pyStrIsDigit year then some (strToNat year : Int) else none

/-- A fetched record with the integer year attached, ready for storage. -/
def attachYear (year : String) (p : ScholarPub) : PubDict :=
  { title := p.title
    authors := p.authors
    venue := p.venue
    year := int_of_year year
    citations := p.citations
    scholar_url := p.scholar_url
    pub_number := (p.pub_number : Int) }

/-- The flattening loop over publications_by_year (bulk_sync.py 66-70). -/
def flatten_publications (by_year : List (String × List ScholarPub)) : List PubDict :=
  (by_year.map (fun kv => kv.2.map (attachYear kv.1))).flatten

/-- The whole state owned by the storage gateway. -/
structure DbState where
  publications : List PubRow
  profiles : List ProfileRow
deriving Repr, DecidableEq

/-- Outcome of one orchestrator run: the returned bool, the resulting
storage state, and whether each storage write was invoked at all. -/
structure SyncResult where
  ok : Bool
  db : DbState
  wrote_publications : Bool
  wrote_profile : Bool
deriving Repr, DecidableEq

/-- The profile dict built from the fetcher result by the orchestrator
(bulk_sync.py 83-91, app.py 203-211). -/
def profileDictOf (sd : ScholarData) : ProfileDict :=
  { name := sd.profile.name
    affiliation := sd.profile.affiliation
    scholar_url := sd.profile.scholar_url
    total_citations := sd.profile.total_citations
    h_index := sd.profile.h_index
    i10_index := sd.profile.i10_index
    total_publications := (sd.total_publications : Int) }

/-- sync_all_publications (bulk_sync.py 28-124): fail the run when the
fetcher returned the None sentinel, otherwise flatten, bulk-replace, and
on success upsert the profile; failAt injects a storage failure into the
bulk replace, newId and now parameterize the profile insert. -/
def sync_all_publications (scholar_data : Option ScholarData)
    (failAt : Option Nat) (newId now : Nat) (db : DbState) : SyncResult :=
  match scholar_data with
  | none =>
      { ok := false, db := db, wrote_publications := false, wrote_profile := false }
  | some sd =>
      let all_publications := flatten_publications sd.publications_by_year
      let res := bulk_insert_publications failAt db.publications all_publications
      if res.1 then
        let db1 : DbState := { db with publications := res.2 }
        let pres := update_profile db1.profiles (profileDictOf sd) newId now
        { ok := true
          db := { db1 with profiles := pres.2 }
          wrote_publications := true
          wrote_profile := true }
      else
        { ok := false
          db := { db with publications := res.2 }
          wrote_publications := true
          wrote_profile := false }

/-- The admin sync endpoint sync_scholar_data (app.py 174-223): the same
pipeline inline, returning the HTTP status code and the storage state; a
None fetcher result yields status 500 before any storage write. -/
def sync_scholar_endpoint (scholar_data : Option ScholarData)
    (failAt : Option Nat) (newId now : Nat) (db : DbState) : Nat × DbState :=
  match scholar_data with
  | none => (500, db)
  | some sd =>
      let all_publications := flatten_publications sd.publications_by_year
      let res := bulk_insert_publications failAt db.publications all_publications
      if res.1 then
        let db1 : DbState := { db with publications := res.2 }
        let pres := update_profile db1.profiles (profileDictOf sd) newId now
        (200, { db1 with profiles := pres.2 })
      else (500, { db with publications := res.2 })

/-- The profile field of the /api/publications response (app.py line 92):
a profile object on page 1, None on later pages. -/
def publications_endpoint_profile (profiles : List ProfileRow) (page : Nat) :
    Option ProfileDict :=
  if page = 1 then some (get_profile profiles) else none

/-- fix_unknown_years (fixunknown.py 11-58): a read-only analysis that
counts rows with NULL-or-zero years and rows outside 1900-2030; it never
modifies the table.  Returns the two counts and the (unchanged) table. -/
def fix_unknown_years (db : List PubRow) : Nat × Nat × List PubRow :=
  ((db.filter (fun r => r.year = none || r.year = some 0)).length,
   (db.filter (fun r =>
      match r.year with
      | none => false
      | some y => y < 1900 || 2030 < y)).length,
   db)

/-! ## Helper lemmas -/

/-- Ceiling division identity behind the total_pages formula. -/
theorem ceilDiv_eq_ceil (t p : Nat) (hp : 0 < p) :
    (((t + p - 1) / p : Nat) : ℤ) = ⌈(t : ℚ) / (p : ℚ)⌉ := by
  have hle : (t + p - 1) / p * p ≤ t + p - 1 := Nat.div_mul_le_self (t + p - 1) p
  have hlt : t + p - 1 < (t + p - 1) / p * p + p := Nat.lt_div_mul_add hp
  set q := (t + p - 1) / p with hq
  obtain ⟨X, hX⟩ : ∃ X, q * p = X := ⟨_, rfl⟩
  rw [hX] at hle hlt
  have h1 : t ≤ X := by omega
  have h2 : X < t + p := by omega
  have hp' : (0 : ℚ) < (p : ℚ) := by exact_mod_cast hp
  symm
  rw [Int.ceil_eq_iff]
  constructor
  · push_cast
    rw [lt_div_iff₀ hp']
    have hc : (X : ℚ) < (t : ℚ) + (p : ℚ) := by exact_mod_cast h2
    rw [← hX] at hc
    push_cast at hc
    nlinarith
  · push_cast
    rw [div_le_iff₀ hp']
    have hc : (t : ℚ) ≤ (X : ℚ) := by exact_mod_cast h1
    rw [← hX] at hc
    push_cast at hc
    linarith

/-! ## C2 : fetcher retry policy -/

/-- C2: the fetch makes at most 3 attempts; if the attempt fails twice then
succeeds, the successful result is returned after exactly 3 attempts; if
every attempt fails, the None sentinel is returned after exactly 3
attempts, and no exception propagates (the embedding is a total
function). -/
theorem fetcher_retry_policy {α : Type} (f : Nat → Option α) :
    (∀ r : α, f 1 = none → f 2 = none → f 3 = some r →
        fetch_scholar_data f = (some r, 3))
    ∧ ((∀ a, f a = none) → fetch_scholar_data f = (none, 3))
    ∧ (fetch_scholar_data f).2 ≤ 3 := by
  refine ⟨?_, ?_, ?_⟩
  · intro r h1 h2 h3
    simp [fetch_scholar_data, fetchAttempts, List.range', h1, h2, h3]
  · intro h
    simp [fetch_scholar_data, fetchAttempts, List.range', h 1, h 2, h 3]
  · rcases h1 : f 1 with _ | r1 <;> rcases h2 : f 2 with _ | r2 <;>
      rcases h3 : f 3 with _ | r3 <;>
      simp [fetch_scholar_data, fetchAttempts, List.range', h1, h2, h3]

/-- Witness for fetcher_retry_policy at two concrete attempt functions. -/
theorem fetcher_retry_policy_witness :
    fetch_scholar_data (fun a => if a = 3 then some 42 else none) = (some 42, 3)
    ∧ fetch_scholar_data (fun _ => (none : Option Nat)) = (none, 3) :=
  ⟨(fetcher_retry_policy (fun a => if a = 3 then some 42 else none)).1 42
      (by decide) (by decide) (by decide),
   (fetcher_retry_policy (fun _ => (none : Option Nat))).2.1 (fun _ => rfl)⟩

/-! ## C3 : pagination math -/

/-- C3: for every page number at least 1, per_page at least 1 and year
filter, the paginated read reports total_pages equal to the ceiling of
total divided by per_page, and has_next holds exactly when page times
per_page is below the total count of records matching the filter. -/
theorem pagination_math (db : List PubRow) (page per_page : Nat) (yf : YearFilter)
    (hp : 1 ≤ page) (hpp : 1 ≤ per_page) :
    (((get_publications db page per_page yf).2.total_pages : ℤ)
        = ⌈((get_publications db page per_page yf).2.total : ℚ) / (per_page : ℚ)⌉)
    ∧ ((get_publications db page per_page yf).2.has_next = true
        ↔ page * per_page < (get_publications db page per_page yf).2.total)
    ∧ (get_publications db page per_page yf).2.total
        = (db.filter (fun r => matchesYear yf r.year)).length := by
  refine ⟨?_, ?_, by simp [get_publications]⟩
  · simpa [get_publications] using
      ceilDiv_eq_ceil (db.filter (fun r => matchesYear yf r.year)).length per_page hpp
  · simp only [get_publications, decide_eq_true_eq]
    have hpage : (page - 1) * per_page + per_page = page * per_page := by
      have h : page - 1 + 1 = page := Nat.succ_pred_eq_of_pos hp
      calc (page - 1) * per_page + per_page
          = (page - 1 + 1) * per_page := by ring
        _ = page * per_page := by rw [h]
    rw [hpage]

/-- Witness for pagination_math on a concrete read. -/
theorem pagination_math_witness :
    (((get_publications [] 1 5 YearFilter.all).2.total_pages : ℤ)
        = ⌈((get_publications [] 1 5 YearFilter.all).2.total : ℚ) / (5 : ℚ)⌉)
    ∧ ((get_publications [] 1 5 YearFilter.all).2.has_next = true
        ↔ 1 * 5 < (get_publications [] 1 5 YearFilter.all).2.total)
    ∧ (get_publications [] 1 5 YearFilter.all).2.total
        = (List.filter (fun r => matchesYear YearFilter.all r.year) ([] : List PubRow)).length :=
  pagination_math [] 1 5 YearFilter.all (by decide) (by decide)

/-! ## C9 : orchestrator failure propagation -/

/-- C9: when the fetcher returns the None sentinel, the orchestrator run
fails with the storage state untouched and performs neither the bulk
replace nor the profile upsert, and the admin sync endpoint answers 500
with the storage state untouched. -/
theorem orchestrator_failure_propagation (failAt : Option Nat) (newId now : Nat)
    (db : DbState) :
    sync_all_publications none failAt newId now db
      = { ok := false, db := db, wrote_publications := false, wrote_profile := false }
    ∧ sync_scholar_endpoint none failAt newId now db = (500, db) :=
  ⟨rfl, rfl⟩

/-! ## C10 : default profile -/

/-- C10: reading the profile from an empty scholar_profile table does not
fail and does not return an absent value: it returns the hard-coded
default profile (fixed name, affiliation and scholar URL, and zero
total_citations, h_index, i10_index, total_publications), and the
publications endpoint always carries a present profile object on page
1. -/
theorem default_profile_on_empty :
    get_profile [] = defaultProfile
    ∧ defaultProfile.name = "Dr. Abhishek Dixit"
    ∧ defaultProfile.affiliation = "Indian Institute of Technology Delhi"
    ∧ defaultProfile.scholar_url
        = "https://scholar.google.co.in/citations?user=CjJ84BwAAAAJ&hl=en"
    ∧ defaultProfile.total_citations = 0
    ∧ defaultProfile.h_index = 0
    ∧ defaultProfile.i10_index = 0
    ∧ defaultProfile.total_publications = 0
    ∧ ∀ profiles : List ProfileRow,
        (publications_endpoint_profile profiles 1).isSome = true := by
  refine ⟨?_, rfl, rfl, rfl, rfl, rfl, rfl, rfl, ?_⟩
  · simp [get_profile]
  · intro profiles
    simp [publications_endpoint_profile]

/-! ## C1 : bulk replace atomicity -/

/-- When the insert loop fails at any step, the rollback restores the
committed snapshot, whatever pending work was accumulated. -/
theorem runBatches_rollback (failAt : Option Nat) :
    ∀ (bs : List (List PubRow)) (step : Nat) (st : TxState),
      (runBatches failAt step st bs).1 = false →
      (runBatches failAt step st bs).2 = st.committed := by
  intro bs
  induction bs with
  | nil => intro step st h; simp [runBatches] at h
  | cons b bs ih =>
      intro step st h
      by_cases hf : failAt = some step
      · simp [runBatches, hf]
      · simp only [runBatches, if_neg hf] at h ⊢
        exact ih (step + 1) _ h

/-- Without an injected failure the insert loop appends every batch to the
pending view and commits it. -/
theorem runBatches_success :
    ∀ (bs : List (List PubRow)) (step : Nat) (st : TxState),
      runBatches none step st bs = (true, st.pending ++ bs.flatten) := by
  intro bs
  induction bs with
  | nil => intro step st; simp [runBatches]
  | cons b bs ih =>
      intro step st
      simp only [runBatches, reduceCtorEq, if_neg (by simp : (none : Option Nat) ≠ some step)]
      rw [ih]
      simp

/-- The batches concatenate back to the full values list. -/
theorem batchesAux_flatten :
    ∀ (fuel : Nat) (l : List PubRow), (batchesAux fuel l).flatten = l := by
  intro fuel
  induction fuel with
  | zero => intro l; cases l <;> simp [batchesAux]
  | succ n ih =>
      intro l
      cases l with
      | nil => simp [batchesAux]
      | cons x xs => simp [batchesAux, ih]

/-- With sufficient fuel every batch holds at most 100 rows. -/
theorem batchesAux_le100 :
    ∀ (fuel : Nat) (l : List PubRow), l.length ≤ fuel →
      ∀ b ∈ batchesAux fuel l, b.length ≤ 100 := by
  intro fuel
  induction fuel with
  | zero =>
      intro l hl b hb
      have : l = [] := List.length_eq_zero.mp (Nat.le_zero.mp hl)
      subst this
      simp [batchesAux] at hb
  | succ n ih =>
      intro l hl b hb
      cases l with
      | nil => simp [batchesAux] at hb
      | cons x xs =>
          simp only [batchesAux, List.mem_cons] at hb
          rcases hb with hb | hb
          · subst hb
            exact List.length_take_le 100 (x :: xs)
          · refine ih _ ?_ b hb
            simp only [List.length_cons] at hl
            simp only [List.length_drop, List.length_cons]
            omega

/-- C1: bulk replace is atomic: the whole call is one transaction built
from the delete step and the 100-row insert batches; a failure injected at
any step makes the call return false with the pre-replace rows fully
intact (no exception escapes, the embedding is total), while the
failure-free run commits exactly the new record set, chunked into batches
of at most 100 whose concatenation is the full set. -/
theorem bulk_replace_atomic (failAt : Option Nat) (db : List PubRow)
    (pubs : List PubDict) :
    ((bulk_insert_publications failAt db pubs).1 = false →
        (bulk_insert_publications failAt db pubs).2 = db)
    ∧ bulk_insert_publications none db pubs = (true, pubs.map pubToValue)
    ∧ (∀ b ∈ batches100 (pubs.map pubToValue), b.length ≤ 100)
    ∧ (batches100 (pubs.map pubToValue)).flatten = pubs.map pubToValue := by
  refine ⟨?_, ?_, batchesAux_le100 _ _ le_rfl, batchesAux_flatten _ _⟩
  · intro h
    by_cases hf : failAt = some 0
    · simp [bulk_insert_publications, hf]
    · simp only [bulk_insert_publications, if_neg hf] at h ⊢
      exact runBatches_rollback failAt _ 1 _ h
  · simp only [bulk_insert_publications,
      if_neg (by simp : (none : Option Nat) ≠ some 0)]
    rw [runBatches_success]
    simp [batches100, batchesAux_flatten]

/-- A sample pre-existing row for the witness. -/
def sampleRow : PubRow :=
  { title := "Old paper"
    authors := "A Dixit"
    venue := "JLT"
    year := some 2019
    citations := 4
    scholar_url := "urlold"
    pub_number := 1 }

/-- A sample incoming publication dict for the witness. -/
def samplePub : PubDict :=
  { title := "New paper"
    authors := "A Dixit, J Smith"
    venue := "OFC"
    year := some 2024
    citations := 2
    scholar_url := "urlnew"
    pub_number := 1 }

/-- Witness for bulk_replace_atomic: a failure injected at the delete step
of a concrete replace leaves the single pre-existing row intact. -/
theorem bulk_replace_atomic_witness :
    (bulk_insert_publications (some 0) [sampleRow] [samplePub]).1 = false
    ∧ (bulk_insert_publications (some 0) [sampleRow] [samplePub]).2 = [sampleRow] :=
  ⟨by decide, (bulk_replace_atomic (some 0) [sampleRow] [samplePub]).1 (by decide)⟩

/-! ## C4 : per-item failure isolation -/

/-- The processing loop keeps exactly the non-failing items and stamps each
surviving record with its 1-based discovery position. -/
theorem processFrom_spec :
    ∀ (pubs : List (Option RawPub)) (i : Nat),
      ((processFrom i pubs).map (fun r => r.pub_number)
          = ((pubs.enumFrom i).filter (fun p => p.2.isSome)).map (fun p => p.1 + 1))
      ∧ (processFrom i pubs).length = (pubs.filter Option.isSome).length := by
  intro pubs
  induction pubs with
  | nil => intro i; simp [processFrom]
  | cons p ps ih =>
      intro i
      cases p with
      | none =>
          simpa [processFrom, processOne, List.enumFrom, Option.isSome] using ih (i + 1)
      | some raw =>
          simpa [processFrom, processOne, List.enumFrom, Option.isSome] using ih (i + 1)

/-- C4: failing items are skipped and processing continues: the output has
exactly one record per non-failing item, each surviving record carries a
sequence number equal to its 1-based original discovery position, order
preserved; in particular 10 items with item 5 raising yield exactly 9
records numbered 1-4 and 6-10. -/
theorem per_item_failure_isolation (pubs : List (Option RawPub)) (r : RawPub) :
    (process_all_publications pubs).length = (pubs.filter Option.isSome).length
    ∧ (process_all_publications pubs).map (fun p => p.pub_number) = okPositions pubs
    ∧ (process_all_publications
          (List.replicate 4 (some r) ++ [none] ++ List.replicate 5 (some r))).map
            (fun p => p.pub_number) = [1, 2, 3, 4, 6, 7, 8, 9, 10]
    ∧ (process_all_publications
          (List.replicate 4 (some r) ++ [none] ++ List.replicate 5 (some r))).length
        = 9 := by
  refine ⟨(processFrom_spec pubs 0).2, ?_, ?_, ?_⟩
  · have h := (processFrom_spec pubs 0).1
    simpa [process_all_publications, okPositions, List.enum] using h
  · simp [process_all_publications, List.replicate, processFrom, processOne]
  · simp [process_all_publications, List.replicate, processFrom, processOne]

/-! ## C5 : unknown-year ordering -/

/-- The ORDER BY comparator is transitive. -/
theorem rowLE_trans (a b c : PubRow) (hab : rowLE a b) (hbc : rowLE b c) :
    rowLE a c := by
  unfold rowLE at *
  rcases ha : a.year with _ | ya <;> rcases hb : b.year with _ | yb <;>
    rcases hc : c.year with _ | yc <;> simp [ha, hb, hc] at * <;> omega

/-- The ORDER BY comparator is total. -/
theorem rowLE_total (a b : PubRow) : rowLE a b || rowLE b a := by
  unfold rowLE
  rcases a.year with _ | ya <;> rcases b.year with _ | yb <;> simp <;> omega

/-- A row ordered no later than a NULL-year row under the ORDER BY
comparator has NULL year itself when the earlier row does. -/
theorem rowLE_nulls_last (a b : PubRow) (h : rowLE a b = true)
    (ha : a.year = none) : b.year = none := by
  unfold rowLE at h
  rcases hb : b.year with _ | yb
  · rfl
  · rw [ha, hb] at h
    simp at h

/-- The ordered row list is sorted under the ORDER BY comparator. -/
theorem orderPublications_pairwise (rows : List PubRow) :
    (orderPublications rows).Pairwise (fun a b => rowLE a b = true) :=
  List.sorted_mergeSort (fun a b c hab hbc => rowLE_trans a b c hab hbc)
    (fun a b => rowLE_total a b) rows

/-- The fetcher sort output is sorted by the descending key comparator. -/
theorem sortPublicationsDesc_pairwise (pubs : List ScholarPub) :
    (sortPublicationsDesc pubs).Pairwise (fun a b => pubKeyLE a b = true) :=
  List.sorted_mergeSort
    (by intro a b c hab hbc; simp [pubKeyLE] at *; omega)
    (by intro a b; simp [pubKeyLE]; omega) pubs

/-- A fetched publication whose year label is not numeric and is followed
by a publication with the digit label for zero. -/
def unknownYearPub : ScholarPub :=
  { title := "Pub with unknown year"
    authors := ""
    venue := ""
    year := "Unknown"
    citations := 0
    scholar_url := ""
    pub_number := 1 }

/-- A fetched publication whose year label is the digit string 0. -/
def zeroYearPub : ScholarPub :=
  { title := "Pub with year zero"
    authors := ""
    venue := ""
    year := "0"
    citations := 0
    scholar_url := ""
    pub_number := 2 }

/-- C5 counterexample: the digit label 0 gets the same sort key (0) as a
non-numeric label, and the stable sort keeps the non-numeric record
BEFORE the numeric-year record, so a non-numeric-year record does not
sort after every numeric-year record; the flattened output likewise
carries the unset-year record before the set-year record. -/
theorem unknown_year_ordering_counterexample :
    pyStrIsDigit zeroYearPub.year = true
    ∧ pyStrIsDigit unknownYearPub.year = false
    ∧ sortPublicationsDesc [unknownYearPub, zeroYearPub]
        = [unknownYearPub, zeroYearPub]
    ∧ (flatten_publications (groupByYear [unknownYearPub, zeroYearPub])).map
        (fun p => p.year) = [none, some 0] := by
  refine ⟨by decide, by decide, ?_, ?_⟩
  · simp [sortPublicationsDesc, List.mergeSort, unknownYearPub, zeroYearPub,
      pubKeyLE, formatSortKey, pyStrIsDigit, strToNat]
  · simp [flatten_publications, groupByYear, sortPublicationsDesc, List.mergeSort,
      insertByYear, unknownYearPub, zeroYearPub, pubKeyLE, formatSortKey,
      pyStrIsDigit, strToNat, attachYear, int_of_year]

/-- C5 amended: the flat fetcher output is sorted by the year key
descending, and every record with a non-numeric year label comes after
every record whose numeric year is nonzero (labels whose integer value is
zero share the non-numeric rank); the storage read and search page
orderings place every unset-year row after every set-year row. -/
theorem unknown_year_ordering_amended (pubs : List ScholarPub) (db : List PubRow)
    (q : String) (page per_page : Nat) (yf : YearFilter) :
    (sortPublicationsDesc pubs).Pairwise (fun a b => pubKeyLE a b = true)
    ∧ (sortPublicationsDesc pubs).Pairwise (fun a b =>
          pyStrIsDigit a.year = false →
          pyStrIsDigit b.year = true → strToNat b.year = 0)
    ∧ ((get_publications db page per_page yf).1).Pairwise
          (fun a b => a.year = none → b.year = none)
    ∧ ((search_publications db q page per_page).1).Pairwise
          (fun a b => a.year = none → b.year = none) := by
  refine ⟨sortPublicationsDesc_pairwise pubs, ?_, ?_, ?_⟩
  · refine (sortPublicationsDesc_pairwise pubs).imp ?_
    intro a b h ha hb
    simp only [pubKeyLE, formatSortKey, ha, hb, decide_eq_true_eq] at h
    simp only [Bool.false_eq_true, ite_false, ite_true] at h
    omega
  · have hs := (orderPublications_pairwise
      (db.filter (fun r => matchesYear yf r.year))).imp
      (fun h ha => rowLE_nulls_last _ _ h ha)
    exact List.Pairwise.sublist
      ((List.take_sublist _ _).trans (List.drop_sublist _ _)) hs
  · have hs := (orderPublications_pairwise (db.filter (matchesSearch q))).imp
      (fun h ha => rowLE_nulls_last _ _ h ha)
    exact List.Pairwise.sublist
      ((List.take_sublist _ _).trans (List.drop_sublist _ _)) hs

/-! ## C6 : year normalization -/

/-- Nat.digitChar yields a digit character below 10. -/
theorem digitChar_isDigit : ∀ m : Nat, m < 10 → (Nat.digitChar m).isDigit = true := by
  decide

/-- Every character produced by the decimal printer is a digit. -/
theorem natDecDigitsAux_digits :
    ∀ (fuel n : Nat), ∀ c ∈ natDecDigitsAux fuel n, c.isDigit = true := by
  intro fuel
  induction fuel with
  | zero =>
      intro n c hc
      cases n with
      | zero => simp [natDecDigitsAux] at hc; subst hc; decide
      | succ m =>
          simp [natDecDigitsAux] at hc
          subst hc
          exact digitChar_isDigit _ (Nat.mod_lt _ (by omega))
  | succ f ih =>
      intro n c hc
      cases n with
      | zero => simp [natDecDigitsAux] at hc; subst hc; decide
      | succ m =>
          simp only [natDecDigitsAux] at hc
          split at hc
          · simp at hc; subst hc; exact digitChar_isDigit _ (by omega)
          · rw [List.mem_append] at hc
            rcases hc with hc | hc
            · exact ih _ c hc
            · simp at hc; subst hc
              exact digitChar_isDigit _ (Nat.mod_lt _ (by omega))

/-- The decimal printer never yields the empty digit list. -/
theorem natDecDigitsAux_ne_nil : ∀ (fuel n : Nat), natDecDigitsAux fuel n ≠ [] := by
  intro fuel n
  cases fuel <;> cases n <;> simp [natDecDigitsAux]
  split <;> simp

/-- str(n) of a natural number passes isdigit. -/
theorem natToDecStr_isDigit (n : Nat) : pyStrIsDigit (natToDecStr n) = true := by
  have h1 := natDecDigitsAux_ne_nil n n
  have h2 := natDecDigitsAux_digits n n
  simp only [pyStrIsDigit, natToDecStr]
  rw [Bool.and_eq_true]
  constructor
  · simpa using h1
  · rw [List.all_eq_true]
    intro c hc
    exact h2 c (by simpa using hc)

/-- A string starting with the minus sign fails isdigit. -/
theorem pyStrIsDigit_neg (s : String) : pyStrIsDigit ("-" ++ s) = false := by
  simp [pyStrIsDigit, String.data_append]

/-- The database year expression keeps a positive year unchanged. -/
theorem sanitizeYear_some_pos (n : Int) (h0 : n ≠ 0) (hn : 0 ≤ n) :
    sanitizeYear (some n) = some n := by
  simp only [sanitizeYear, pyTruthy, pyStrOfOptInt, pyStrOfInt, if_neg (not_lt.mpr hn)]
  simp [h0, natToDecStr_isDigit]

/-- Any year value surviving the database year expression is positive. -/
theorem sanitizeYear_pos_of_some (y : Option Int) (n : Int)
    (h : sanitizeYear y = some n) : 0 < n := by
  unfold sanitizeYear at h
  split at h
  · rename_i hc
    cases y with
    | none => simp [pyTruthy] at hc
    | some m =>
        injection h with hmn
        subst hmn
        rcases Bool.and_eq_true_iff.mp hc with ⟨h1, h2⟩
        simp only [pyTruthy, bne_iff_ne, ne_eq] at h1
        by_contra hneg
        push_neg at hneg
        have hm : m < 0 := lt_of_le_of_ne hneg (by simpa using h1)
        rw [show pyStrOfOptInt (some m) = pyStrOfInt m from rfl, pyStrOfInt,
          if_pos hm, pyStrIsDigit_neg] at h2
        exact absurd h2 (by simp)
  · cases h

/-- C6 counterexample: the year string 0 is composed of digits, so the
claim requires the committed year to be the integer 0, but the database
year expression treats the flattened integer 0 as falsy and stores NULL
instead. -/
theorem year_normalization_counterexample :
    pyStrIsDigit "0" = true
    ∧ int_of_year "0" = some 0
    ∧ sanitizeYear (int_of_year "0") = none := by
  decide

/-- C6 amended: a digit year string with nonzero value is committed as the
corresponding integer; a digit string with value zero and any non-digit
string are committed as the unset NULL year; the examples 2021 and n/a
behave as claimed, and the unset sentinel differs from every integer. -/
theorem year_normalization_amended (s : String) :
    (pyStrIsDigit s = true → 0 < strToNat s →
        sanitizeYear (int_of_year s) = some (strToNat s : Int))
    ∧ (pyStrIsDigit s = true → strToNat s = 0 →
        sanitizeYear (int_of_year s) = none)
    ∧ (pyStrIsDigit s = false → sanitizeYear (int_of_year s) = none)
    ∧ int_of_year "2021" = some 2021
    ∧ sanitizeYear (int_of_year "2021") = some 2021
    ∧ int_of_year "n/a" = none
    ∧ sanitizeYear (int_of_year "n/a") = none
    ∧ (∀ n : Int, (none : Option Int) ≠ some n) := by
  refine ⟨?_, ?_, ?_, by decide, by decide, by decide, by decide,
    fun n h => by cases h⟩
  · intro hd hpos
    have hcast : (0 : Int) < (strToNat s : Int) := by exact_mod_cast hpos
    rw [int_of_year, if_pos hd]
    exact sanitizeYear_some_pos _ (ne_of_gt hcast) (le_of_lt hcast)
  · intro hd h0
    rw [int_of_year, if_pos hd, h0]
    simp [sanitizeYear, pyTruthy]
  · intro hd
    rw [int_of_year, if_neg (by simp [hd])]
    simp [sanitizeYear, pyTruthy]

/-- Witness for year_normalization_amended at the year string 2021. -/
theorem year_normalization_witness :
    pyStrIsDigit "2021" = true ∧ 0 < strToNat "2021"
    ∧ sanitizeYear (int_of_year "2021") = some (strToNat "2021" : Int) :=
  ⟨by decide, by decide,
    (year_normalization_amended "2021").1 (by decide) (by decide)⟩

/-! ## C7 : year plausibility invariant -/

/-- A publication dict whose year is far outside any plausible 4-digit
range. -/
def hugeYearPub : PubDict :=
  { title := "Future paper"
    authors := "A Dixit"
    venue := ""
    year := some 99999
    citations := 0
    scholar_url := ""
    pub_number := 1 }

/-- C7 counterexample: a successful bulk replace commits a record whose
year is present and equal to 99999, which is outside every plausible
4-digit range (and outside the 1900-2030 window fixunknown.py reports
on), so the code enforces no 4-digit plausibility invariant. -/
theorem year_plausibility_counterexample :
    (bulk_insert_publications none [] [hugeYearPub]).1 = true
    ∧ (bulk_insert_publications none [] [hugeYearPub]).2.map (fun r => r.year)
        = [some 99999]
    ∧ ¬ (1000 ≤ (99999 : Int) ∧ (99999 : Int) ≤ 9999)
    ∧ ¬ (1900 ≤ (99999 : Int) ∧ (99999 : Int) ≤ 2030) := by
  refine ⟨by decide, by decide, by decide, by decide⟩

/-- C7 amended: every record committed by a successful bulk replace has
either an unset year or a positive integer year (zero and negative values
are mapped to NULL by the year expression), and fix_unknown_years only
reports counts, leaving the table unchanged; no 4-digit range is
enforced. -/
theorem year_plausibility_amended (db : List PubRow) (pubs : List PubDict) :
    (∀ r ∈ (bulk_insert_publications none db pubs).2,
        r.year = none ∨ ∃ n : Int, r.year = some n ∧ 0 < n)
    ∧ (fix_unknown_years db).2.2 = db := by
  constructor
  · intro r hr
    have hres : (bulk_insert_publications none db pubs).2 = pubs.map pubToValue := by
      simp only [bulk_insert_publications,
        if_neg (by simp : (none : Option Nat) ≠ some 0)]
      rw [runBatches_success]
      simp [batches100, batchesAux_flatten]
    rw [hres] at hr
    rcases List.mem_map.mp hr with ⟨p, _, hp⟩
    subst hp
    rcases hy : sanitizeYear p.year with _ | n
    · exact Or.inl hy
    · exact Or.inr ⟨n, hy, sanitizeYear_pos_of_some p.year n hy⟩
  · rfl

/-- Witness for year_plausibility_amended at a concrete replace. -/
theorem year_plausibility_witness :
    pubToValue hugeYearPub ∈ (bulk_insert_publications none [] [hugeYearPub]).2
    ∧ ((pubToValue hugeYearPub).year = none
        ∨ ∃ n : Int, (pubToValue hugeYearPub).year = some n ∧ 0 < n) :=
  ⟨by decide, (year_plausibility_amended [] [hugeYearPub]).1 _ (by decide)⟩

/-! ## C8 : author-name highlighting -/

/-- When a pattern has no occurrence in the remaining input, the scan
returns the input unchanged for any fuel. -/
theorem subScanF_no_match (pat : List Char) :
    ∀ (s : List Char) (fuel : Nat) (prev : Option Char),
      existsMatchFrom pat prev s = false → subScanF pat fuel prev s = s := by
  intro s
  induction s with
  | nil => intro fuel prev _; cases fuel <;> simp [subScanF]
  | cons c cs ih =>
      intro fuel prev h
      rw [existsMatchFrom, Bool.or_eq_false_iff] at h
      cases fuel with
      | zero => simp [subScanF]
      | succ f =>
          rw [subScanF, if_neg (by simp [h.1])]
          rw [ih f (some c) h.2]

/-- One re.sub pass leaves a match-free string unchanged. -/
theorem reSub_no_match (pat : List Char) (s : List Char)
    (h : existsMatchFrom pat none s = false) : reSub pat s = s :=
  subScanF_no_match pat s s.length none h

/-- Declarative description of one substitution pass, following the
claim's words: scanning left to right, every non-overlapping
boundary-delimited case-insensitive occurrence of the pattern is wrapped
in the strong emphasis marker with its original matched text kept, and
every other character is copied through verbatim.  The implementation is
proved to refine this relation on every input. -/
inductive ReSubSpec (pat : List Char) : Option Char → List Char → List Char → Prop
  | nil (prev : Option Char) : ReSubSpec pat prev [] []
  | copy (prev : Option Char) (c : Char) (cs out : List Char) :
      matchHere prev pat (c :: cs) = false →
      ReSubSpec pat (some c) cs out →
      ReSubSpec pat prev (c :: cs) (c :: out)
  | wrap (prev : Option Char) (c : Char) (cs out : List Char) :
      matchHere prev pat (c :: cs) = true →
      ReSubSpec pat ((c :: cs).take pat.length).getLast?
        ((c :: cs).drop pat.length) out →
      ReSubSpec pat prev (c :: cs)
        ("<strong>".toList ++ (c :: cs).take pat.length
          ++ "</strong>".toList ++ out)

/-- The scanner satisfies the wrapping description on every input, for any
nonempty pattern and sufficient fuel. -/
theorem subScanF_sound (pat : List Char) (hpat : pat ≠ []) :
    ∀ (fuel : Nat) (s : List Char) (prev : Option Char), s.length ≤ fuel →
      ReSubSpec pat prev s (subScanF pat fuel prev s) := by
  have hlen : 0 < pat.length := List.length_pos.mpr hpat
  intro fuel
  induction fuel with
  | zero =>
      intro s prev hs
      have h0 : s = [] := List.length_eq_zero.mp (Nat.le_zero.mp hs)
      subst h0
      exact ReSubSpec.nil prev
  | succ f ih =>
      intro s prev hs
      cases s with
      | nil => exact ReSubSpec.nil prev
      | cons c cs =>
          cases hm : matchHere prev pat (c :: cs) with
          | true =>
              have hgoal : subScanF pat (f + 1) prev (c :: cs)
                  = "<strong>".toList ++ (c :: cs).take pat.length
                      ++ "</strong>".toList
                      ++ subScanF pat f ((c :: cs).take pat.length).getLast?
                          ((c :: cs).drop pat.length) := by
                simp [subScanF, hm]
              rw [hgoal]
              refine ReSubSpec.wrap prev c cs _ hm (ih _ _ ?_)
              simp only [List.length_drop, List.length_cons] at *
              omega
          | false =>
              have hgoal : subScanF pat (f + 1) prev (c :: cs)
                  = c :: subScanF pat f (some c) cs := by
                simp [subScanF, hm]
              rw [hgoal]
              refine ReSubSpec.copy prev c cs _ hm (ih _ _ ?_)
              simp only [List.length_cons] at hs
              omega

/-- The last character before a position, accumulated through a copied
prefix. -/
theorem getLast?_cons_or (l : List Char) : ∀ (c : Char) (o : Option Char),
    (c :: l).getLast?.or o = l.getLast?.or (some c) := by
  induction l with
  | nil => intro c o; rfl
  | cons d ds ih =>
      intro c o
      rw [List.getLast?_cons_cons, ih d o, ih d (some c)]

/-- Any output satisfying the wrapping description on an input with at
least one occurrence decomposes as the match-free prefix, the leftmost
occurrence wrapped in the strong emphasis marker with its original text,
and the processed remainder. -/
theorem ReSubSpec_wraps (pat : List Char) (prev : Option Char) (s out : List Char)
    (h : ReSubSpec pat prev s out) (hex : existsMatchFrom pat prev s = true) :
    ∃ pre mid post rest,
      s = pre ++ mid ++ post
      ∧ matchHere (pre.getLast?.or prev) pat (mid ++ post) = true
      ∧ mid = (mid ++ post).take pat.length
      ∧ out = pre ++ "<strong>".toList ++ mid ++ "</strong>".toList ++ rest := by
  induction h with
  | nil p => rw [existsMatchFrom] at hex; cases hex
  | copy p c cs o hm hrec ih =>
      rw [existsMatchFrom, hm, Bool.false_or] at hex
      obtain ⟨pre, mid, post, rest, h1, h2, h3, h4⟩ := ih hex
      refine ⟨c :: pre, mid, post, rest, ?_, ?_, h3, ?_⟩
      · rw [h1]; simp
      · rw [getLast?_cons_or]; exact h2
      · rw [h4]; simp
  | wrap p c cs o hm hrec ih =>
      refine ⟨[], (c :: cs).take pat.length, (c :: cs).drop pat.length, o,
        ?_, ?_, ?_, ?_⟩
      · simp
      · simpa [List.take_append_drop] using hm
      · rw [List.take_append_drop]
      · simp

/-- C8: for every input author string, the highlighter is the three
substitution passes in source order, and each pass satisfies the wrapping
description: every boundary-delimited case-insensitive occurrence of the
fixed owner-name patterns is wrapped in the strong emphasis marker with
its original text, all other characters copied verbatim (so any input
with an occurrence yields the match-free prefix, the wrapped leftmost
occurrence and the processed remainder); author strings containing no
match of any pattern pass through completely unchanged, and the input
A Dixit, J Smith comes out with the owner segment wrapped and J Smith
untouched. -/
theorem author_name_highlighting :
    (∀ authors : String,
        highlight_author_name authors
            = ⟨reSub pat3 (reSub pat2 (reSub pat1 authors.toList))⟩
        ∧ ReSubSpec pat1 none authors.toList (reSub pat1 authors.toList)
        ∧ ReSubSpec pat2 none (reSub pat1 authors.toList)
            (reSub pat2 (reSub pat1 authors.toList))
        ∧ ReSubSpec pat3 none (reSub pat2 (reSub pat1 authors.toList))
            (reSub pat3 (reSub pat2 (reSub pat1 authors.toList))))
    ∧ (∀ (pat : List Char) (prev : Option Char) (s out : List Char),
        ReSubSpec pat prev s out → existsMatchFrom pat prev s = true →
        ∃ pre mid post rest,
          s = pre ++ mid ++ post
          ∧ matchHere (pre.getLast?.or prev) pat (mid ++ post) = true
          ∧ mid = (mid ++ post).take pat.length
          ∧ out = pre ++ "<strong>".toList ++ mid ++ "</strong>".toList ++ rest)
    ∧ (∀ authors : String,
        existsMatchFrom pat1 none authors.toList = false →
        existsMatchFrom pat2 none authors.toList = false →
        existsMatchFrom pat3 none authors.toList = false →
        highlight_author_name authors = authors)
    ∧ highlight_author_name "A Dixit, J Smith" = "<strong>A Dixit</strong>, J Smith" := by
  refine ⟨?_, ?_, ?_, by decide⟩
  · intro authors
    refine ⟨?_, ?_, ?_, ?_⟩
    · by_cases h : authors = ""
      · subst h; rfl
      · simp [highlight_author_name, h]
    · exact subScanF_sound pat1 (by decide) _ _ none le_rfl
    · exact subScanF_sound pat2 (by decide) _ _ none le_rfl
    · exact subScanF_sound pat3 (by decide) _ _ none le_rfl
  · intro pat prev s out h hex
    exact ReSubSpec_wraps pat prev s out h hex
  · intro authors h1 h2 h3
    unfold highlight_author_name
    split
    · rfl
    · rw [reSub_no_match pat1 _ h1, reSub_no_match pat2 _ h2,
        reSub_no_match pat3 _ h3]
      cases authors
      rfl

/-- Witness for author_name_highlighting: the wrapping decomposition is
exhibited on the concrete matching input, and the pass-through conjunct on
a concrete match-free input. -/
theorem author_name_highlighting_witness :
    (∃ pre mid post rest,
        "A Dixit, J Smith".toList = pre ++ mid ++ post
        ∧ matchHere (pre.getLast?.or none) pat1 (mid ++ post) = true
        ∧ mid = (mid ++ post).take pat1.length
        ∧ reSub pat1 "A Dixit, J Smith".toList
            = pre ++ "<strong>".toList ++ mid ++ "</strong>".toList ++ rest)
    ∧ existsMatchFrom pat1 none "A Dixit, J Smith".toList = true
    ∧ existsMatchFrom pat1 none "J Smith".toList = false
    ∧ existsMatchFrom pat2 none "J Smith".toList = false
    ∧ existsMatchFrom pat3 none "J Smith".toList = false
    ∧ highlight_author_name "J Smith" = "J Smith" :=
  ⟨author_name_highlighting.2.1 pat1 none "A Dixit, J Smith".toList
      (reSub pat1 "A Dixit, J Smith".toList)
      (author_name_highlighting.1 "A Dixit, J Smith").2.1 (by decide),
   by decide, by decide, by decide, by decide,
   author_name_highlighting.2.2.1 "J Smith" (by decide) (by decide) (by decide)⟩

/-- Witness for unknown_year_ordering_amended at a concrete fetch result
and storage state. -/
theorem unknown_year_ordering_witness :
    (sortPublicationsDesc [unknownYearPub, zeroYearPub]).Pairwise
        (fun a b => pubKeyLE a b = true)
    ∧ (sortPublicationsDesc [unknownYearPub, zeroYearPub]).Pairwise
        (fun a b => pyStrIsDigit a.year = false →
            pyStrIsDigit b.year = true → strToNat b.year = 0)
    ∧ ((get_publications [sampleRow] 1 5 YearFilter.all).1).Pairwise
        (fun a b => a.year = none → b.year = none)
    ∧ ((search_publications [sampleRow] "Dixit" 1 5).1).Pairwise
        (fun a b => a.year = none → b.year = none) :=
  unknown_year_ordering_amended [unknownYearPub, zeroYearPub] [sampleRow]
    "Dixit" 1 5 YearFilter.all
